import Mathlib

/-!
Verification of the cart/checkout API endpoints of `saas/api/billing.py`.

The Python views are shallowly embedded as pure Lean functions:

* `CheckoutAPIView.create` — option selection matching, address backfill and
  the charge call (lines 522-552 of the source);
* `CartItemDestroyAPIView` — session/database cart item removal (lines 283-335);
* `CartItemUploadAPIView.post` — bulk CSV upload (lines 247-280);
* `CartItemAPIView.post` — single/list cart insertion (lines 159-188).

External collaborators (the serializer validity predicate, `insert_item`,
`organization.checkout`, the ORM queryset) are passed in as parameters, so the
theorems quantify over their behaviours.  Python semantics that matter here are
made explicit: negative list indices wrap (`pyGet`), tuple unpacking of a
wrong-length row raises `ValueError`, and an uncaught exception aborts the
request.
-/

set_option autoImplicit false

namespace Saas

/-- Exception kinds relevant to the embedded fragment.  `valueError` is raised
by Python tuple unpacking of a wrong-length sequence; `csvError` is the
`csv.Error` class named in the `except` clause of `CartItemUploadAPIView.post`;
`indexError` is raised by indexing a list out of range. -/
inductive PyExc where
  | valueError
  | csvError
  | indexError
  deriving DecidableEq, Repr

/-- Python list indexing `xs[i]` for a possibly negative `Int` index: indices
in `[0, len)` read left to right, indices in `[-len, 0)` wrap from the end, and
anything else raises `IndexError` (modelled as `none`). -/
def pyGet {α : Type} (xs : List α) (i : Int) : Option α :=
  if 0 ≤ i then xs.get? i.toNat
  else if 0 ≤ (xs.length : Int) + i then xs.get? ((xs.length : Int) + i).toNat
  else none

/-- One entry of the queryset computed by `as_invoicables`: the default billing
lines (`'lines'`) and the selectable prepayment options (`'options'`).  The
payload type `α` abstracts the transaction dictionaries. -/
structure Invoicable (α : Type) where
  lines : List α
  options : List α
  deriving DecidableEq, Repr

namespace CheckoutAPIView

/-- The body of the `for index, item in enumerate(items_options)` loop of
`CheckoutAPIView.create` for a single queryset entry `q` and submitted option
value `k` (`item['option']`):

    opt_index = item['option'] - 1
    if opt_index >= len(queryset[index]['options']): continue
    selected = queryset[index]['options'][opt_index]
    queryset[index]['lines'].append(selected)

`.error .indexError` is the uncaught `IndexError` raised by
`queryset[index]['options'][opt_index]` when `opt_index` is negative and out of
range. -/
def stepEntry {α : Type} (q : Invoicable α) (k : Int) : Except PyExc (Invoicable α) :=
  if k - 1 ≥ (q.options.length : Int) then .ok q
  else
    match pyGet q.options (k - 1) with
    | some selected => .ok { q with lines := q.lines ++ [selected] }
    | none => .error .indexError

/-- The `enumerate(items_options)` loop of `CheckoutAPIView.create`, starting
at loop index `i`.  The `if index >= len(queryset): continue` guard is the
`none` branch of `qs.get? i`. -/
def applyOptionsFrom {α : Type} (i : Nat) (qs : List (Invoicable α)) :
    List Int → Except PyExc (List (Invoicable α))
  | [] => .ok qs
  | k :: rest =>
    match qs.get? i with
    | none => applyOptionsFrom (i + 1) qs rest
    | some q =>
      match stepEntry q k with
      | .ok q' => applyOptionsFrom (i + 1) (qs.set i q') rest
      | .error e => .error e

/-- Applying the submitted option selections (`data.get('items')`, one `option`
integer per submitted item) to the queryset, as done by the loop in
`CheckoutAPIView.create` lines 528-536. -/
def applyOptions {α : Type} (qs : List (Invoicable α)) (sels : List Int) :
    Except PyExc (List (Invoicable α)) :=
  applyOptionsFrom 0 qs sels

end CheckoutAPIView

/-- The optional address fields of `CheckoutSerializer` (`street_address`,
`locality`, `region`, `postal_code`, `country`); `none` stands for an absent
field (`data.get(...)` returning `None`). -/
structure AddressData where
  street_address : Option String
  locality : Option String
  region : Option String
  postal_code : Option String
  country : Option String
  deriving DecidableEq, Repr

/-- The address state of the billed organization. -/
structure OrgAddress where
  street_address : String
  locality : String
  region : String
  postal_code : String
  country : String
  deriving DecidableEq, Repr

/-- Modelled from the spec: `Organization.update_address_if_empty` is not part
of the sources (only its call site in `CheckoutAPIView.create` is).  The spec
says checkout may "backfill the organization's postal address from
checkout-supplied fields only if currently empty"; each stored field is filled
from the supplied value only when the stored field is empty. -/
def update_address_if_empty (org : OrgAddress) (d : AddressData) : OrgAddress :=
  { street_address :=
      if org.street_address = "" then (d.street_address.getD org.street_address)
      else org.street_address
    locality := if org.locality = "" then (d.locality.getD org.locality) else org.locality
    region := if org.region = "" then (d.region.getD org.region) else org.region
    postal_code :=
      if org.postal_code = "" then (d.postal_code.getD org.postal_code) else org.postal_code
    country := if org.country = "" then (d.country.getD org.country) else org.country }

/-- The charge record returned by `organization.checkout`; only
`invoiced_total.amount` is inspected by the view. -/
structure Charge where
  invoiced_total_amount : Int
  deriving DecidableEq, Repr

/-- Outcome of the checkout POST.  `ok200charge` is `Response(result.data, 200)`
with the serialized charge; `ok200empty` is `Response({}, 200)`;
`forbidden403` is `Response({"details": err}, 403)` for a `ProcessorError`;
`serverError` is an exception that no handler in the view catches. -/
inductive CheckoutResponse where
  | ok200charge (charge : Charge)
  | ok200empty
  | forbidden403 (details : String)
  | serverError (e : PyExc)
  deriving DecidableEq, Repr

/-- Result state of one run of `CheckoutAPIView.create`: the HTTP response,
the organization address after the request, and how many times
`organization.checkout` was invoked. -/
structure CheckoutOutcome where
  response : CheckoutResponse
  org : OrgAddress
  charge_attempts : Nat
  deriving Repr

namespace CheckoutAPIView

/-- `CheckoutAPIView.create` (lines 522-552): validate the body, apply the
submitted option selections to the queryset, backfill the organization's
address, then call `organization.checkout`.  `sels` is `data.get('items')`
reduced to its `option` integers (`none` when the key is absent — the
`if items_options:` guard also skips an empty list, which applies no option
either way).  The external charge procedure is the parameter `checkout`:
`.error msg` stands for `ProcessorError(msg)`, `.ok none` for a `None` charge,
`.ok (some c)` for a charge object. -/
def create {α : Type} (qs : List (Invoicable α)) (sels : Option (List Int))
    (d : AddressData) (org : OrgAddress)
    (checkout : List (Invoicable α) → Except String (Option Charge)) :
    CheckoutOutcome :=
  match applyOptions qs (sels.getD []) with
  | .error e => ⟨.serverError e, org, 0⟩
  | .ok qs' =>
    let org' := update_address_if_empty org d
    match checkout qs' with
    | .error msg => ⟨.forbidden403 msg, org', 1⟩
    | .ok none => ⟨.ok200empty, org', 1⟩
    | .ok (some charge) =>
      if charge.invoiced_total_amount > 0 then ⟨.ok200charge charge, org', 1⟩
      else ⟨.ok200empty, org', 1⟩

end CheckoutAPIView

/-- A cart item held in the anonymous session (`request.session['cart_items']`,
a list of mappings); only the `'plan'` slug is examined by the delete view. -/
structure SessionCartItem where
  plan : String
  deriving DecidableEq, Repr

/-- A `CartItem` database row, restricted to the fields the delete view
filters on (`plan__slug`, `user`, `recorded`). -/
structure DBCartItem where
  plan : String
  user : Nat
  recorded : Bool
  deriving DecidableEq, Repr

/-- HTTP status of the DELETE `/cart/{plan}/` endpoint. -/
inductive DeleteStatus where
  | noContent204
  | notFound404
  deriving DecidableEq, Repr

/-- Result state of one run of `CartItemDestroyAPIView.delete`: the response
status, the session cart and database after the request, and whether the
database deletion path (`self.destroy`) was taken. -/
structure DeleteOutcome where
  status : DeleteStatus
  session : List SessionCartItem
  db : List DBCartItem
  db_destroy_called : Bool
  deriving DecidableEq, Repr

namespace CartItemDestroyAPIView

/-- `CartItemDestroyAPIView.destroy_in_session` (lines 296-311): drop every
session item whose plan is `candidate`, and report whether one was found. -/
def destroy_in_session (cart_items : List SessionCartItem) (candidate : String) :
    Bool × List SessionCartItem :=
  (cart_items.any (fun item => item.plan = candidate),
   cart_items.filter (fun item => ¬(item.plan = candidate)))

/-- The `CartItem` rows matching `get_object`'s filter
(`plan__slug=plan, user=user, recorded=False`), in database order. -/
def matchingRows (db : List DBCartItem) (plan : String) (user : Nat) : List DBCartItem :=
  db.filter (fun it => it.plan = plan ∧ it.user = user ∧ it.recorded = false)

/-- `CartItemDestroyAPIView.get_object` (lines 313-326): `get_object_or_404`
raises `Http404` when no row matches (`none` here), returns the row when
exactly one matches, and on `MultipleObjectsReturned` falls back to
`.first()` of the filtered queryset. -/
def get_object (db : List DBCartItem) (plan : String) (user : Nat) : Option DBCartItem :=
  match matchingRows db plan user with
  | [] => none
  | [it] => some it
  | it :: _ :: _ => some it

/-- `CartItemDestroyAPIView.delete` (lines 328-335): always filter the session
cart first; only when nothing was found there and the request is authenticated
(`user = some uid`) fall through to the generic `destroy`, whose `get_object`
may raise `Http404` (status 404) or delete the row (status 204). -/
def delete (session : List SessionCartItem) (db : List DBCartItem)
    (plan : String) (user : Option Nat) : DeleteOutcome :=
  let destroyed := (destroy_in_session session plan).1
  let session' := (destroy_in_session session plan).2
  match user with
  | some uid =>
    if destroyed then ⟨.noContent204, session', db, false⟩
    else
      match get_object db plan uid with
      | none => ⟨.notFound404, session', db, true⟩
      | some it => ⟨.noContent204, session', db.erase it, true⟩
  | none => ⟨.noContent204, session', db, false⟩

end CartItemDestroyAPIView

/-- The fields fed to `CartItemCreateSerializer` for one CSV row:
`{'plan': plan, 'first_name': ..., 'last_name': ..., 'sync_on': email}`. -/
structure UploadRowData where
  plan : String
  first_name : String
  last_name : String
  sync_on : String
  deriving DecidableEq, Repr

/-- One entry of the `failed` bucket of the upload response: either the raw
row with the `'Unable to parse row'` error, or the serializer data with its
validation errors. -/
inductive FailedEntry where
  | parse_failure (raw : List String)
  | validation_failure (d : UploadRowData)
  deriving DecidableEq, Repr

/-- The `{'created': [...], 'updated': [...], 'failed': [...]}` response body
of the bulk upload. -/
structure UploadResponseBody where
  created : List UploadRowData
  updated : List UploadRowData
  failed : List FailedEntry
  deriving DecidableEq, Repr

namespace CartItemUploadAPIView

/-- Python tuple unpacking `first_name, last_name, email = row`: succeeds
exactly when the row has three fields, and raises `ValueError` otherwise.
It never raises `csv.Error`. -/
def unpackRow (row : List String) : Except PyExc (String × String × String) :=
  match row with
  | [a, b, c] => .ok (a, b, c)
  | _ => .error .valueError

/-- The `for row in filed:` loop of `CartItemUploadAPIView.post`
(lines 255-278).  The `try`/`except csv.Error` around the unpacking catches
only `csvError`; any other exception propagates and aborts the request
(`.error`).  `is_valid` abstracts `CartItemCreateSerializer.is_valid` and
`inserts_as_new` the `created` flag of `CartMixin.insert_item`. -/
def uploadLoop (plan : String) (is_valid : UploadRowData → Bool)
    (inserts_as_new : UploadRowData → Bool) :
    List (List String) → UploadResponseBody → Except PyExc UploadResponseBody
  | [], response => .ok response
  | row :: rest, response =>
    match unpackRow row with
    | .error e =>
      if e = .csvError then
        uploadLoop plan is_valid inserts_as_new rest
          { response with failed := response.failed ++ [.parse_failure row] }
      else .error e
    | .ok (first_name, last_name, email) =>
      let d : UploadRowData := ⟨plan, first_name, last_name, email⟩
      if is_valid d then
        if inserts_as_new d then
          uploadLoop plan is_valid inserts_as_new rest
            { response with created := response.created ++ [d] }
        else
          uploadLoop plan is_valid inserts_as_new rest
            { response with updated := response.updated ++ [d] }
      else
        uploadLoop plan is_valid inserts_as_new rest
          { response with failed := response.failed ++ [.validation_failure d] }

/-- `CartItemUploadAPIView.post` (lines 247-280): run the row loop over the
parsed CSV starting from empty buckets; `.ok` is the HTTP 200 response with
the buckets, `.error` an uncaught exception aborting the request. -/
def post (plan : String) (is_valid : UploadRowData → Bool)
    (inserts_as_new : UploadRowData → Bool) (rows : List (List String)) :
    Except PyExc UploadResponseBody :=
  uploadLoop plan is_valid inserts_as_new rows ⟨[], [], []⟩

end CartItemUploadAPIView

/-- A validated cart item of `CartItemCreateSerializer`
(`plan`, `option`, `first_name`, `last_name`, `sync_on`). -/
structure CartItemData where
  plan : String
  option : Option Int
  first_name : Option String
  last_name : Option String
  sync_on : Option String
  deriving DecidableEq, Repr

/-- HTTP status of the POST `/cart/` endpoint. -/
inductive CartPostStatus where
  | created201
  | ok200
  | badRequest400
  deriving DecidableEq, Repr

namespace CartItemAPIView

/-- `CartItemAPIView.post` (lines 159-188).  `single` is the validated data of
the single-item parse when `serializer.is_valid()` succeeds on the body as one
item; `listParse` that of the many-items parse.  The view tries the single
parse first, falls back to the list parse, and returns 400 when `items` is
still falsy (`None`, or a validated empty list).  Otherwise it inserts each
item — `inserts_as_new` abstracting the `created` flag of
`CartMixin.insert_item` — and responds 201 as soon as any item was created,
200 otherwise. -/
def post (single : Option CartItemData) (listParse : Option (List CartItemData))
    (inserts_as_new : CartItemData → Bool) : CartPostStatus :=
  let items : Option (List CartItemData) :=
    match single with
    | some it => some [it]
    | none => listParse
  match items with
  | none => .badRequest400
  | some its =>
    if its.isEmpty then .badRequest400
    else if its.any inserts_as_new then .created201
    else .ok200

end CartItemAPIView

end Saas

namespace Saas

example : CheckoutAPIView.applyOptions [(⟨[10], [20]⟩ : Invoicable Nat)] [1] =
    .ok [⟨[10, 20], [20]⟩] := by rfl

example : CheckoutAPIView.applyOptions [(⟨[10], [20]⟩ : Invoicable Nat)] [2] =
    .ok [⟨[10], [20]⟩] := by rfl

example : CheckoutAPIView.applyOptions [(⟨[10], [20]⟩ : Invoicable Nat)] [0] =
    .ok [⟨[10, 20], [20]⟩] := by rfl

example : CheckoutAPIView.applyOptions [(⟨[10], []⟩ : Invoicable Nat)] [0] =
    .error .indexError := by rfl

example : CheckoutAPIView.applyOptions [(⟨[10], [20]⟩ : Invoicable Nat)] [1, 5, 7] =
    .ok [⟨[10, 20], [20]⟩] := by rfl

example : CartItemDestroyAPIView.delete [] [] "open-space" (some 1) =
    ⟨.notFound404, [], [], true⟩ := by rfl

example : CartItemDestroyAPIView.delete [⟨"open-space"⟩] [] "open-space" (some 1) =
    ⟨.noContent204, [], [], false⟩ := by rfl

/-! ### Properties of the option-application loop -/

namespace CheckoutAPIView

theorem applyOptionsFrom_length {α : Type} (sels : List Int) :
    ∀ (i : Nat) (qs qs' : List (Invoicable α)),
      applyOptionsFrom i qs sels = .ok qs' → qs'.length = qs.length := by
  induction sels with
  | nil =>
    intro i qs qs' h
    simp only [applyOptionsFrom] at h
    cases h
    rfl
  | cons k rest ih =>
    intro i qs qs' h
    simp only [applyOptionsFrom] at h
    split at h
    · exact ih (i + 1) qs qs' h
    · split at h
      · have := ih (i + 1) _ qs' h
        simpa using this
      · cases h

theorem applyOptionsFrom_get_outside {α : Type} (sels : List Int) :
    ∀ (i : Nat) (qs qs' : List (Invoicable α)),
      applyOptionsFrom i qs sels = .ok qs' →
      ∀ j, (j < i ∨ i + sels.length ≤ j) → qs'.get? j = qs.get? j := by
  induction sels with
  | nil =>
    intro i qs qs' h j _
    simp only [applyOptionsFrom] at h
    cases h
    rfl
  | cons k rest ih =>
    intro i qs qs' h j hj
    have hj' : j < i + 1 ∨ (i + 1) + rest.length ≤ j := by
      rcases hj with hj | hj
      · exact Or.inl (by omega)
      · exact Or.inr (by simp only [List.length_cons] at hj; omega)
    have hne : i ≠ j := by
      rcases hj with hj | hj
      · omega
      · simp only [List.length_cons] at hj; omega
    simp only [applyOptionsFrom] at h
    split at h
    · exact ih (i + 1) qs qs' h j hj'
    · split at h
      · next q hq q' hs =>
        have := ih (i + 1) (qs.set i q') qs' h j hj'
        rw [this, List.get?_set_ne q' qs hne]
      · cases h

theorem applyOptionsFrom_get_inside {α : Type} (sels : List Int) :
    ∀ (i j : Nat) (qs qs' : List (Invoicable α)) (q : Invoicable α) (k : Int),
      applyOptionsFrom i qs sels = .ok qs' → i ≤ j →
      sels.get? (j - i) = some k → qs.get? j = some q →
      ∃ q', stepEntry q k = .ok q' ∧ qs'.get? j = some q' := by
  induction sels with
  | nil =>
    intro i j qs qs' q k _ _ hsel _
    simp at hsel
  | cons k₀ rest ih =>
    intro i j qs qs' q k h hij hsel hq
    simp only [applyOptionsFrom] at h
    split at h
    · next heq =>
      by_cases hji : j = i
      · rw [hji, heq] at hq
        cases hq
      · have hij1 : i + 1 ≤ j := by omega
        have hsub : j - i = (j - (i + 1)) + 1 := by omega
        rw [hsub, List.get?_cons_succ] at hsel
        exact ih (i + 1) j qs qs' q k h hij1 hsel hq
    · next q₁ heq =>
      split at h
      · next q₁' hs =>
        by_cases hji : j = i
        · subst hji
          rw [heq] at hq
          injection hq with hq1
          subst hq1
          rw [Nat.sub_self, List.get?_cons_zero] at hsel
          injection hsel with hk
          subst hk
          refine ⟨q₁', hs, ?_⟩
          have hout := applyOptionsFrom_get_outside rest (j + 1) (qs.set j q₁') qs' h j
            (Or.inl (by omega))
          rw [hout]
          have hlt : j < qs.length := by
            by_contra hc
            push_neg at hc
            rw [List.get?_eq_none.mpr hc] at heq
            cases heq
          exact List.get?_set_eq_of_lt q₁' hlt
        · have hij1 : i + 1 ≤ j := by omega
          have hsub : j - i = (j - (i + 1)) + 1 := by omega
          rw [hsub, List.get?_cons_succ] at hsel
          have hq' : (qs.set i q₁').get? j = some q := by
            rw [List.get?_set_ne q₁' qs (by omega)]
            exact hq
          exact ih (i + 1) j (qs.set i q₁') qs' q k h hij1 hsel hq'
      · cases h

theorem stepEntry_ok_of_pos {α : Type} (q : Invoicable α) (k : Int) (hk : 1 ≤ k) :
    ∃ q', stepEntry q k = .ok q' := by
  unfold stepEntry
  by_cases h : k - 1 ≥ (q.options.length : Int)
  · exact ⟨q, by rw [if_pos h]⟩
  · push_neg at h
    have h0 : (0 : Int) ≤ k - 1 := by omega
    have hlt : (k - 1).toNat < q.options.length := by omega
    rw [if_neg (not_le.mpr h)]
    unfold pyGet
    rw [if_pos h0, List.get?_eq_get hlt]
    exact ⟨_, rfl⟩

theorem stepEntry_oob {α : Type} (q : Invoicable α) (k : Int)
    (h : (q.options.length : Int) < k) : stepEntry q k = .ok q := by
  unfold stepEntry
  rw [if_pos (by omega)]

theorem stepEntry_in_range {α : Type} (q : Invoicable α) (k : Int)
    (h1 : 1 ≤ k) (h2 : k ≤ (q.options.length : Int)) :
    ∃ sel, q.options.get? (k - 1).toNat = some sel ∧
      stepEntry q k = .ok { q with lines := q.lines ++ [sel] } := by
  have h0 : (0 : Int) ≤ k - 1 := by omega
  have hlt : (k - 1).toNat < q.options.length := by omega
  refine ⟨q.options.get ⟨(k - 1).toNat, hlt⟩, List.get?_eq_get hlt, ?_⟩
  unfold stepEntry
  rw [if_neg (by omega)]
  unfold pyGet
  rw [if_pos h0, List.get?_eq_get hlt]

theorem applyOptionsFrom_ok_of_pos {α : Type} (sels : List Int) :
    ∀ (i : Nat) (qs : List (Invoicable α)), (∀ k ∈ sels, 1 ≤ k) →
      ∃ qs', applyOptionsFrom i qs sels = .ok qs' := by
  induction sels with
  | nil =>
    intro i qs _
    exact ⟨qs, rfl⟩
  | cons k rest ih =>
    intro i qs hpos
    simp only [applyOptionsFrom]
    split
    · exact ih (i + 1) qs (fun x hx => hpos x (List.mem_cons_of_mem k hx))
    · next q heq =>
      obtain ⟨q', hs⟩ := stepEntry_ok_of_pos q k (hpos k (List.mem_cons_self k rest))
      rw [hs]
      exact ih (i + 1) (qs.set i q') (fun x hx => hpos x (List.mem_cons_of_mem k hx))

end CheckoutAPIView

/-! ### Claim theorems -/

/-- C1 (counterexample): a submitted option value of `0` is outside the bounds
of the options list (valid values are `1..len`), yet it is not silently
ignored: with one option offered, `opt_index = -1` wraps Python-style and the
option is appended to the line's `lines`; with no option offered, an uncaught
`IndexError` is raised. -/
theorem checkout_option_out_of_bounds_cex :
    CheckoutAPIView.applyOptions [(⟨[10], [20]⟩ : Invoicable Nat)] [0] =
      .ok [⟨[10, 20], [20]⟩] ∧
    [(10 : Nat), 20] ≠ [10] ∧
    CheckoutAPIView.applyOptions [(⟨[10], []⟩ : Invoicable Nat)] [0] =
      .error .indexError :=
  ⟨rfl, by decide, rfl⟩

/-- C1 (amended): for checkout option selections whose submitted values are
all at least `1`, the loop succeeds, preserves the number of lines, and any
selection whose index is beyond the computed lines or whose value exceeds the
number of options of its line leaves that line unchanged. -/
theorem checkout_option_out_of_bounds_ignored {α : Type} (qs : List (Invoicable α))
    (sels : List Int) (hpos : ∀ k ∈ sels, 1 ≤ k) :
    ∃ qs', CheckoutAPIView.applyOptions qs sels = .ok qs' ∧
      qs'.length = qs.length ∧
      ∀ j, (sels.length ≤ j ∨ qs.length ≤ j ∨
          (∀ k, sels.get? j = some k → ∀ q, qs.get? j = some q →
            (q.options.length : Int) < k)) →
        qs'.get? j = qs.get? j := by
  obtain ⟨qs', hok⟩ := CheckoutAPIView.applyOptionsFrom_ok_of_pos sels 0 qs hpos
  have hlen := CheckoutAPIView.applyOptionsFrom_length sels 0 qs qs' hok
  refine ⟨qs', hok, hlen, ?_⟩
  intro j hcond
  rcases hcond with hsl | hql | hoob
  · exact CheckoutAPIView.applyOptionsFrom_get_outside sels 0 qs qs' hok j
      (Or.inr (by omega))
  · have h1 : qs.get? j = none := List.get?_eq_none.mpr hql
    have h2 : qs'.get? j = none := List.get?_eq_none.mpr (by omega)
    rw [h1, h2]
  · by_cases hjlen : j < sels.length
    · cases hsel : sels.get? j with
      | none =>
        rw [List.get?_eq_none] at hsel
        omega
      | some k =>
        cases hq : qs.get? j with
        | none =>
          have h2 : qs'.get? j = none := by
            rw [List.get?_eq_none] at hq ⊢
            omega
          exact h2
        | some q =>
          have hk := hoob k hsel q hq
          obtain ⟨q', hstep, hget⟩ :=
            CheckoutAPIView.applyOptionsFrom_get_inside sels 0 j qs qs' q k hok
              (Nat.zero_le j) (by simpa using hsel) hq
          rw [CheckoutAPIView.stepEntry_oob q k hk] at hstep
          injection hstep with hq'
          rw [hget]
          exact congrArg some hq'.symm
    · exact CheckoutAPIView.applyOptionsFrom_get_outside sels 0 qs qs' hok j
        (Or.inr (by omega))

/-- Witness for the amended C1 at a concrete input. -/
theorem checkout_option_out_of_bounds_ignored_witness :
    ∃ qs', CheckoutAPIView.applyOptions [(⟨[10], [20]⟩ : Invoicable Nat)] [5] = .ok qs' ∧
      qs'.length = [(⟨[10], [20]⟩ : Invoicable Nat)].length ∧
      ∀ j, (([5] : List Int).length ≤ j ∨ [(⟨[10], [20]⟩ : Invoicable Nat)].length ≤ j ∨
          (∀ k, ([5] : List Int).get? j = some k →
            ∀ q, [(⟨[10], [20]⟩ : Invoicable Nat)].get? j = some q →
            (q.options.length : Int) < k)) →
        qs'.get? j = [(⟨[10], [20]⟩ : Invoicable Nat)].get? j :=
  checkout_option_out_of_bounds_ignored [⟨[10], [20]⟩] [5] (by decide)

/-- C9: checkout option selections are 1-based: a submitted value `k` with
`1 ≤ k ≤ len(options)` for a line within the computed lines appends exactly
the `(k-1)`-th (0-based) element of that line's options to its `lines`. -/
theorem checkout_option_one_based {α : Type} (qs qs' : List (Invoicable α))
    (sels : List Int) (j : Nat) (k : Int) (q : Invoicable α)
    (hok : CheckoutAPIView.applyOptions qs sels = .ok qs')
    (hsel : sels.get? j = some k) (hq : qs.get? j = some q)
    (h1 : 1 ≤ k) (h2 : k ≤ (q.options.length : Int)) :
    ∃ sel, q.options.get? (k - 1).toNat = some sel ∧
      qs'.get? j = some { q with lines := q.lines ++ [sel] } := by
  obtain ⟨sel, hselopt, hstep⟩ := CheckoutAPIView.stepEntry_in_range q k h1 h2
  obtain ⟨q', hstep', hget⟩ :=
    CheckoutAPIView.applyOptionsFrom_get_inside sels 0 j qs qs' q k hok
      (Nat.zero_le j) (by simpa using hsel) hq
  rw [hstep] at hstep'
  injection hstep' with hq'
  exact ⟨sel, hselopt, by rw [hget]; exact congrArg some hq'.symm⟩

/-- Witness for C9 at a concrete input: submitted value `2` selects the second
option. -/
theorem checkout_option_one_based_witness :
    ∃ sel, (⟨[10], [20, 30]⟩ : Invoicable Nat).options.get? ((2 : Int) - 1).toNat = some sel ∧
      [(⟨[10, 30], [20, 30]⟩ : Invoicable Nat)].get? 0 =
        some { (⟨[10], [20, 30]⟩ : Invoicable Nat) with
               lines := (⟨[10], [20, 30]⟩ : Invoicable Nat).lines ++ [sel] } :=
  checkout_option_one_based [⟨[10], [20, 30]⟩] [⟨[10, 30], [20, 30]⟩] [2] 0 2
    ⟨[10], [20, 30]⟩ rfl rfl rfl (by decide) (by decide)

/-- C4: when the charge procedure raises a `ProcessorError`, the checkout POST
responds 403 with the processor's message in the body, and the charge was
attempted exactly once (not retried). -/
theorem checkout_processor_error_403 {α : Type} (qs : List (Invoicable α))
    (sels : Option (List Int)) (d : AddressData) (org : OrgAddress)
    (checkout : List (Invoicable α) → Except String (Option Charge))
    (qs' : List (Invoicable α)) (msg : String)
    (hqs : CheckoutAPIView.applyOptions qs (sels.getD []) = .ok qs')
    (herr : checkout qs' = .error msg) :
    (CheckoutAPIView.create qs sels d org checkout).response = .forbidden403 msg ∧
    (CheckoutAPIView.create qs sels d org checkout).charge_attempts = 1 := by
  simp [CheckoutAPIView.create, hqs, herr]

/-- Witness for C4 at a concrete input. -/
theorem checkout_processor_error_403_witness :
    (CheckoutAPIView.create ([] : List (Invoicable Nat)) none
        ⟨none, none, none, none, none⟩ ⟨"", "", "", "", ""⟩
        (fun _ => .error "card declined")).response = .forbidden403 "card declined" ∧
    (CheckoutAPIView.create ([] : List (Invoicable Nat)) none
        ⟨none, none, none, none, none⟩ ⟨"", "", "", "", ""⟩
        (fun _ => .error "card declined")).charge_attempts = 1 :=
  checkout_processor_error_403 [] none ⟨none, none, none, none, none⟩
    ⟨"", "", "", "", ""⟩ (fun _ => .error "card declined") [] "card declined" rfl rfl

/-- C7: when the charge procedure succeeds but returns no charge, or a charge
whose invoiced total is not positive, the checkout POST responds 200 with an
empty body. -/
theorem checkout_nothing_to_collect_200 {α : Type} (qs : List (Invoicable α))
    (sels : Option (List Int)) (d : AddressData) (org : OrgAddress)
    (checkout : List (Invoicable α) → Except String (Option Charge))
    (qs' : List (Invoicable α)) (result : Option Charge)
    (hqs : CheckoutAPIView.applyOptions qs (sels.getD []) = .ok qs')
    (hres : checkout qs' = .ok result)
    (hzero : ∀ c, result = some c → c.invoiced_total_amount ≤ 0) :
    (CheckoutAPIView.create qs sels d org checkout).response = .ok200empty := by
  cases result with
  | none => simp only [CheckoutAPIView.create, hqs, hres]
  | some c =>
    have hc := hzero c rfl
    simp only [CheckoutAPIView.create, hqs, hres]
    rw [if_neg (by omega)]

/-- Witness for C7 at a concrete input. -/
theorem checkout_nothing_to_collect_200_witness :
    (CheckoutAPIView.create ([] : List (Invoicable Nat)) none
        ⟨none, none, none, none, none⟩ ⟨"", "", "", "", ""⟩
        (fun _ => .ok none)).response = .ok200empty :=
  checkout_nothing_to_collect_200 [] none ⟨none, none, none, none, none⟩
    ⟨"", "", "", "", ""⟩ (fun _ => .ok none) [] none rfl rfl (by intro c hc; cases hc)

/-- C10: the organization's address is backfilled before the charge is
attempted, so when the charge raises a `ProcessorError` the 403 error path
keeps the backfilled address — it is not reverted. -/
theorem checkout_address_backfill_before_charge {α : Type} (qs : List (Invoicable α))
    (sels : Option (List Int)) (d : AddressData) (org : OrgAddress)
    (checkout : List (Invoicable α) → Except String (Option Charge))
    (qs' : List (Invoicable α)) (msg : String)
    (hqs : CheckoutAPIView.applyOptions qs (sels.getD []) = .ok qs')
    (herr : checkout qs' = .error msg) :
    (CheckoutAPIView.create qs sels d org checkout).response = .forbidden403 msg ∧
    (CheckoutAPIView.create qs sels d org checkout).org =
      update_address_if_empty org d := by
  simp [CheckoutAPIView.create, hqs, herr]

/-- Witness for C10 at a concrete input: the empty street address is
backfilled from the checkout data and survives the 403 error path. -/
theorem checkout_address_backfill_before_charge_witness :
    (CheckoutAPIView.create ([] : List (Invoicable Nat)) none
        ⟨some "21 Jump St", none, none, none, none⟩ ⟨"", "", "", "", ""⟩
        (fun _ => .error "declined")).response = .forbidden403 "declined" ∧
    (CheckoutAPIView.create ([] : List (Invoicable Nat)) none
        ⟨some "21 Jump St", none, none, none, none⟩ ⟨"", "", "", "", ""⟩
        (fun _ => .error "declined")).org =
      update_address_if_empty ⟨"", "", "", "", ""⟩
        ⟨some "21 Jump St", none, none, none, none⟩ ∧
    (CheckoutAPIView.create ([] : List (Invoicable Nat)) none
        ⟨some "21 Jump St", none, none, none, none⟩ ⟨"", "", "", "", ""⟩
        (fun _ => .error "declined")).org.street_address = "21 Jump St" := by
  have h := checkout_address_backfill_before_charge ([] : List (Invoicable Nat)) none
    ⟨some "21 Jump St", none, none, none, none⟩ ⟨"", "", "", "", ""⟩
    (fun _ => .error "declined") [] "declined" rfl rfl
  exact ⟨h.1, h.2, rfl⟩

/-- `get_object` raises `Http404` exactly when no unrecorded row matches. -/
theorem CartItemDestroyAPIView.get_object_eq_none_iff (db : List DBCartItem)
    (plan : String) (uid : Nat) :
    CartItemDestroyAPIView.get_object db plan uid = none ↔
      CartItemDestroyAPIView.matchingRows db plan uid = [] := by
  unfold CartItemDestroyAPIView.get_object
  cases h : CartItemDestroyAPIView.matchingRows db plan uid with
  | nil => simp
  | cons a l => cases l <;> simp

/-- `destroy_in_session` reports `found` exactly when some session item has
the candidate plan. -/
theorem CartItemDestroyAPIView.destroy_in_session_found_iff
    (session : List SessionCartItem) (plan : String) :
    (CartItemDestroyAPIView.destroy_in_session session plan).1 = true ↔
      ∃ item ∈ session, item.plan = plan := by
  unfold CartItemDestroyAPIView.destroy_in_session
  simp [List.any_eq_true]

/-- C3 (counterexample): for an authenticated user whose plan is in neither
the session cart nor the database, DELETE `/cart/{plan}/` responds 404, not
204. -/
theorem cart_delete_always_204_cex :
    (CartItemDestroyAPIView.delete [] [] "open-space" (some 7)).status =
      .notFound404 ∧
    DeleteStatus.notFound404 ≠ DeleteStatus.noContent204 :=
  ⟨rfl, by decide⟩

/-- C3 (amended): DELETE `/cart/{plan}/` responds 204 in every case except
one: the request is authenticated, the plan is not in the session cart, and no
unrecorded database row matches `(user, plan)` — then `get_object_or_404`
raises `Http404` and the response is 404. -/
theorem cart_delete_status_characterization (session : List SessionCartItem)
    (db : List DBCartItem) (plan : String) (user : Option Nat) :
    (CartItemDestroyAPIView.delete session db plan user).status = .notFound404 ↔
      ∃ uid, user = some uid ∧ (∀ item ∈ session, item.plan ≠ plan) ∧
        CartItemDestroyAPIView.matchingRows db plan uid = [] := by
  cases user with
  | none =>
    simp only [CartItemDestroyAPIView.delete]
    constructor
    · intro h
      cases h
    · rintro ⟨uid, huid, -, -⟩
      cases huid
  | some uid =>
    simp only [CartItemDestroyAPIView.delete]
    by_cases hfound : (CartItemDestroyAPIView.destroy_in_session session plan).1 = true
    · rw [if_pos hfound]
      obtain ⟨item, hmem, hplan⟩ :=
        (CartItemDestroyAPIView.destroy_in_session_found_iff session plan).mp hfound
      constructor
      · intro h
        cases h
      · rintro ⟨uid', huid, hnone, -⟩
        exact absurd hplan (hnone item hmem)
    · rw [if_neg hfound]
      have hnotfound : ∀ item ∈ session, item.plan ≠ plan := by
        intro item hmem hplan
        exact hfound ((CartItemDestroyAPIView.destroy_in_session_found_iff
          session plan).mpr ⟨item, hmem, hplan⟩)
      cases hobj : CartItemDestroyAPIView.get_object db plan uid with
      | none =>
        simp only [hobj]
        constructor
        · intro _
          exact ⟨uid, rfl, hnotfound,
            (CartItemDestroyAPIView.get_object_eq_none_iff db plan uid).mp hobj⟩
        · intro _
          trivial
      | some it =>
        simp only [hobj]
        constructor
        · intro h
          cases h
        · rintro ⟨uid', huid, -, hmr⟩
          injection huid with huid'
          subst huid'
          have hnone :=
            (CartItemDestroyAPIView.get_object_eq_none_iff db plan uid).mpr hmr
          rw [hobj] at hnone
          cases hnone

/-- Witness for the amended C3 at concrete inputs: both the 404 case and a
204 case. -/
theorem cart_delete_status_characterization_witness :
    ((CartItemDestroyAPIView.delete [] [] "basic" (some 7)).status =
      .notFound404 ↔
      ∃ uid, (some 7 : Option Nat) = some uid ∧
        (∀ item ∈ ([] : List SessionCartItem), item.plan ≠ "basic") ∧
        CartItemDestroyAPIView.matchingRows [] "basic" uid = []) ∧
    (CartItemDestroyAPIView.delete [⟨"basic"⟩] [] "basic" none).status =
      .noContent204 :=
  ⟨cart_delete_status_characterization [] [] "basic" (some 7), rfl⟩

/-- C6: when the plan is found in the session cart, the DELETE succeeds
without touching the database; the database-deletion path is taken only when
the plan was not found in the session cart and the request is authenticated. -/
theorem cart_delete_session_first (session : List SessionCartItem)
    (db : List DBCartItem) (plan : String) (user : Option Nat) :
    ((∃ item ∈ session, item.plan = plan) →
      (CartItemDestroyAPIView.delete session db plan user).status = .noContent204 ∧
      (CartItemDestroyAPIView.delete session db plan user).db = db ∧
      (CartItemDestroyAPIView.delete session db plan user).db_destroy_called = false) ∧
    ((CartItemDestroyAPIView.delete session db plan user).db_destroy_called = true →
      (∀ item ∈ session, item.plan ≠ plan) ∧ user ≠ none) := by
  constructor
  · intro hmem
    have hfound : (CartItemDestroyAPIView.destroy_in_session session plan).1 = true :=
      (CartItemDestroyAPIView.destroy_in_session_found_iff session plan).mpr hmem
    cases user with
    | none => simp only [CartItemDestroyAPIView.delete]; exact ⟨trivial, trivial, trivial⟩
    | some uid =>
      simp only [CartItemDestroyAPIView.delete]
      rw [if_pos hfound]
      exact ⟨by trivial, by trivial, by trivial⟩
  · intro hdb
    cases user with
    | none =>
      simp only [CartItemDestroyAPIView.delete] at hdb
      cases hdb
    | some uid =>
      refine ⟨?_, by simp⟩
      intro item hmem hplan
      have hfound : (CartItemDestroyAPIView.destroy_in_session session plan).1 = true :=
        (CartItemDestroyAPIView.destroy_in_session_found_iff session plan).mpr
          ⟨item, hmem, hplan⟩
      simp only [CartItemDestroyAPIView.delete] at hdb
      rw [if_pos hfound] at hdb
      cases hdb

/-- Witness for C6 at a concrete input: a matching database row survives a
session-cart hit. -/
theorem cart_delete_session_first_witness :
    (CartItemDestroyAPIView.delete [⟨"basic"⟩] [⟨"basic", 7, false⟩] "basic"
      (some 7)).status = .noContent204 ∧
    (CartItemDestroyAPIView.delete [⟨"basic"⟩] [⟨"basic", 7, false⟩] "basic"
      (some 7)).db = [⟨"basic", 7, false⟩] ∧
    (CartItemDestroyAPIView.delete [⟨"basic"⟩] [⟨"basic", 7, false⟩] "basic"
      (some 7)).db_destroy_called = false :=
  (cart_delete_session_first [⟨"basic"⟩] [⟨"basic", 7, false⟩] "basic" (some 7)).1
    ⟨⟨"basic"⟩, by simp, rfl⟩

/-- C8: when several unrecorded rows match `(user, plan)`, `get_object` does
not fail: it falls back to the first matching row, and the DELETE still
responds 204 whatever the session cart holds. -/
theorem cart_delete_duplicate_rows_first_match (db : List DBCartItem)
    (plan : String) (uid : Nat)
    (hdup : 2 ≤ (CartItemDestroyAPIView.matchingRows db plan uid).length) :
    CartItemDestroyAPIView.get_object db plan uid =
      (CartItemDestroyAPIView.matchingRows db plan uid).head? ∧
    ∀ session, (CartItemDestroyAPIView.delete session db plan (some uid)).status =
      .noContent204 := by
  have hobj : CartItemDestroyAPIView.get_object db plan uid =
      (CartItemDestroyAPIView.matchingRows db plan uid).head? := by
    unfold CartItemDestroyAPIView.get_object
    cases h : CartItemDestroyAPIView.matchingRows db plan uid with
    | nil => rw [h] at hdup; simp at hdup
    | cons a l =>
      cases l with
      | nil => rw [h] at hdup; simp at hdup
      | cons b l' => simp
  refine ⟨hobj, ?_⟩
  intro session
  simp only [CartItemDestroyAPIView.delete]
  by_cases hfound : (CartItemDestroyAPIView.destroy_in_session session plan).1 = true
  · rw [if_pos hfound]
  · rw [if_neg hfound]
    cases hgo : CartItemDestroyAPIView.get_object db plan uid with
    | none =>
      have hmr := (CartItemDestroyAPIView.get_object_eq_none_iff db plan uid).mp hgo
      rw [hmr] at hdup
      simp at hdup
    | some it => simp only [hgo]

/-- Witness for C8 at a concrete input: two identical unrecorded rows. -/
theorem cart_delete_duplicate_rows_first_match_witness :
    CartItemDestroyAPIView.get_object [⟨"basic", 7, false⟩, ⟨"basic", 7, false⟩]
        "basic" 7 =
      (CartItemDestroyAPIView.matchingRows [⟨"basic", 7, false⟩, ⟨"basic", 7, false⟩]
        "basic" 7).head? ∧
    ∀ session, (CartItemDestroyAPIView.delete session
      [⟨"basic", 7, false⟩, ⟨"basic", 7, false⟩] "basic" (some 7)).status =
      .noContent204 :=
  cart_delete_duplicate_rows_first_match [⟨"basic", 7, false⟩, ⟨"basic", 7, false⟩]
    "basic" 7 (by decide)

/-- C2: a CSV row with the wrong column count makes the whole upload abort
with an uncaught `ValueError`: the unpacking `first_name, last_name, email =
row` raises `ValueError`, which the `except csv.Error` clause does not catch,
so nothing is reported in `failed` and the remaining well-formed rows are not
processed — whereas the same batch without the malformed row succeeds. -/
theorem upload_malformed_row_aborts_batch :
    CartItemUploadAPIView.post "basic" (fun _ => true) (fun _ => true)
      [["Joe", "Smith"], ["Marie", "Johnson", "mariejohnson@example.com"]] =
      .error .valueError ∧
    CartItemUploadAPIView.unpackRow ["Joe", "Smith"] = .error .valueError ∧
    PyExc.valueError ≠ PyExc.csvError ∧
    CartItemUploadAPIView.post "basic" (fun _ => true) (fun _ => true)
      [["Marie", "Johnson", "mariejohnson@example.com"]] =
      .ok ⟨[⟨"basic", "Marie", "Johnson", "mariejohnson@example.com"⟩], [], []⟩ :=
  ⟨rfl, rfl, by decide, rfl⟩

/-- C5: POST `/cart/` responds 400 when neither the single-item nor the
many-items parse validates, 201 when an item was created (for a single item or
when any item of a list was created), and 200 when the validated items were
all updates. -/
theorem cart_post_status_codes (single : Option CartItemData)
    (listParse : Option (List CartItemData)) (inserts_as_new : CartItemData → Bool) :
    (single = none → listParse = none →
      CartItemAPIView.post single listParse inserts_as_new = .badRequest400) ∧
    (∀ it, single = some it →
      CartItemAPIView.post single listParse inserts_as_new =
        (if inserts_as_new it then .created201 else .ok200)) ∧
    (∀ its, single = none → listParse = some its → its ≠ [] →
      CartItemAPIView.post single listParse inserts_as_new =
        (if its.any inserts_as_new then .created201 else .ok200)) := by
  refine ⟨?_, ?_, ?_⟩
  · rintro rfl rfl
    rfl
  · rintro it rfl
    cases hins : inserts_as_new it <;>
      simp [CartItemAPIView.post, hins]
  · rintro its rfl rfl hne
    cases its with
    | nil => exact absurd rfl hne
    | cons a l =>
      cases hany : (a :: l).any inserts_as_new <;>
        simp [CartItemAPIView.post, hany]

/-- Witness for C5 at concrete inputs covering the 400, 201 and 200 cases. -/
theorem cart_post_status_codes_witness :
    CartItemAPIView.post none none (fun _ => true) = .badRequest400 ∧
    CartItemAPIView.post (some ⟨"basic", none, none, none, none⟩) none
      (fun _ => true) = .created201 ∧
    CartItemAPIView.post none (some [⟨"basic", none, none, none, none⟩])
      (fun _ => false) = .ok200 := by
  refine ⟨(cart_post_status_codes none none (fun _ => true)).1 rfl rfl, ?_, ?_⟩
  · have h := (cart_post_status_codes (some ⟨"basic", none, none, none, none⟩) none
      (fun _ => true)).2.1 ⟨"basic", none, none, none, none⟩ rfl
    simpa using h
  · have h := (cart_post_status_codes none (some [⟨"basic", none, none, none, none⟩])
      (fun _ => false)).2.2 [⟨"basic", none, none, none, none⟩] rfl rfl (by simp)
    simpa using h

end Saas
